import Mathlib

/-!
Verification of the session/authentication bootstrap and notification-routing
core of the OpenMemory dashboard.

The definitions below are a shallow embedding of the TypeScript sources:
JavaScript strings become `String`, nullable/optional values become
`Option String`, `JSON.parse` becomes an executable fueled JSON parser
returning `Option Json`, browser storage tiers (`sessionStorage`,
`localStorage`) become association lists, and the write side effects of the
login/callback handlers become explicit write traces.
-/

/-- Truthiness of a JavaScript string-or-nullish value: `null`/`undefined`
and the empty string are falsy. -/
def truthyS : Option String → Bool
  | none => false
  | some s => s ≠ ""

/-- JavaScript `a || b` where `a` is a string-or-nullish value and `b` a
string: yields `b` when `a` is falsy. -/
def jsOrStr (a : Option String) (b : String) : String :=
  match a with
  | some s => if s = "" then b else s
  | none => b

/-- JavaScript `a || b` where both operands are string-or-nullish values. -/
def jsOrOpt (a b : Option String) : Option String :=
  match a with
  | some s => if s = "" then b else some s
  | none => b

/-- JSON values as produced by `JSON.parse`.  Number literals keep their
lexeme (the handlers never do arithmetic on them). -/
inductive Json where
  | null
  | bool (b : Bool)
  | num (lit : String)
  | str (s : String)
  | arr (elems : List Json)
  | obj (fields : List (String × Json))

/-- JSON whitespace. -/
def isWsChar (c : Char) : Bool := c = ' ' || c = '\t' || c = '\n' || c = '\r'

/-- Drop leading JSON whitespace. -/
def skipWs : List Char → List Char
  | [] => []
  | c :: cs => if isWsChar c then skipWs cs else c :: cs

/-- Value of a hexadecimal digit. -/
def hexDigitVal (c : Char) : Option Nat :=
  if c.isDigit then some (c.toNat - '0'.toNat)
  else if 'a' ≤ c ∧ c ≤ 'f' then some (c.toNat - 'a'.toNat + 10)
  else if 'A' ≤ c ∧ c ≤ 'F' then some (c.toNat - 'A'.toNat + 10)
  else none

/-- Single-character JSON string escapes. -/
def jsonEscapeChar (c : Char) : Option Char :=
  if c = '"' then some '"'
  else if c = '\\' then some '\\'
  else if c = '/' then some '/'
  else if c = 'b' then some (Char.ofNat 8)
  else if c = 'f' then some (Char.ofNat 12)
  else if c = 'n' then some '\n'
  else if c = 'r' then some '\r'
  else if c = 't' then some '\t'
  else none

/-- Body of a JSON string (after the opening quote), fueled.  Returns the
decoded characters and the remaining input after the closing quote. -/
def parseStringBody : Nat → List Char → Option (List Char × List Char)
  | 0, _ => none
  | Nat.succ fuel, cs =>
    match cs with
    | [] => none
    | '"' :: rest => some ([], rest)
    | '\\' :: rest =>
      match rest with
      | 'u' :: h1 :: h2 :: h3 :: h4 :: rest2 =>
        match hexDigitVal h1, hexDigitVal h2, hexDigitVal h3, hexDigitVal h4 with
        | some a, some b, some c, some d =>
          (parseStringBody fuel rest2).map
            (fun p => (Char.ofNat (((a * 16 + b) * 16 + c) * 16 + d) :: p.1, p.2))
        | _, _, _, _ => none
      | e :: rest2 =>
        match jsonEscapeChar e with
        | some c => (parseStringBody fuel rest2).map (fun p => (c :: p.1, p.2))
        | none => none
      | [] => none
    | c :: rest =>
      if c.toNat < 32 then none
      else (parseStringBody fuel rest).map (fun p => (c :: p.1, p.2))

/-- Longest prefix of decimal digits. -/
def takeDigits : List Char → List Char × List Char
  | [] => ([], [])
  | c :: cs =>
    if c.isDigit then
      let p := takeDigits cs
      (c :: p.1, p.2)
    else ([], c :: cs)

/-- Integer part of a JSON number: `0`, or a nonzero digit followed by digits. -/
def parseIntPart : List Char → Option (List Char × List Char)
  | [] => none
  | '0' :: cs => some (['0'], cs)
  | c :: cs =>
    if c.isDigit then
      let p := takeDigits cs
      some (c :: p.1, p.2)
    else none

/-- Optional fractional part of a JSON number. -/
def parseFracPart : List Char → Option (List Char × List Char)
  | '.' :: cs =>
    match takeDigits cs with
    | ([], _) => none
    | (ds, r) => some ('.' :: ds, r)
  | cs => some ([], cs)

/-- Optional exponent part of a JSON number. -/
def parseExpPart : List Char → Option (List Char × List Char)
  | [] => some ([], [])
  | c :: cs =>
    if c = 'e' ∨ c = 'E' then
      match cs with
      | [] => none
      | s :: cs2 =>
        if s = '+' ∨ s = '-' then
          match takeDigits cs2 with
          | ([], _) => none
          | (ds, r) => some (c :: s :: ds, r)
        else
          match takeDigits (s :: cs2) with
          | ([], _) => none
          | (ds, r) => some (c :: ds, r)
    else some ([], c :: cs)

/-- A JSON number literal, returned as its lexeme. -/
def parseNumberLit (cs : List Char) : Option (List Char × List Char) :=
  match cs with
  | '-' :: cs2 => do
    let p1 ← parseIntPart cs2
    let p2 ← parseFracPart p1.2
    let p3 ← parseExpPart p2.2
    pure ('-' :: (p1.1 ++ p2.1 ++ p3.1), p3.2)
  | _ => do
    let p1 ← parseIntPart cs
    let p2 ← parseFracPart p1.2
    let p3 ← parseExpPart p2.2
    pure (p1.1 ++ p2.1 ++ p3.1, p3.2)

mutual

/-- A JSON value, fueled recursive-descent parser. -/
def parseValue : Nat → List Char → Option (Json × List Char)
  | 0, _ => none
  | Nat.succ fuel, cs =>
    match skipWs cs with
    | [] => none
    | 'n' :: 'u' :: 'l' :: 'l' :: rest => some (Json.null, rest)
    | 't' :: 'r' :: 'u' :: 'e' :: rest => some (Json.bool true, rest)
    | 'f' :: 'a' :: 'l' :: 's' :: 'e' :: rest => some (Json.bool false, rest)
    | '"' :: rest =>
      (parseStringBody (Nat.succ fuel) rest).map (fun p => (Json.str (String.mk p.1), p.2))
    | '[' :: rest =>
      match skipWs rest with
      | ']' :: r => some (Json.arr [], r)
      | cs2 => do
        let pv ← parseValue fuel cs2
        let pr ← parseArrayRest fuel (skipWs pv.2)
        pure (Json.arr (pv.1 :: pr.1), pr.2)
    | '{' :: rest =>
      match skipWs rest with
      | '}' :: r => some (Json.obj [], r)
      | '"' :: r => do
        let pk ← parseStringBody (Nat.succ fuel) r
        match skipWs pk.2 with
        | ':' :: r2 => do
          let pv ← parseValue fuel (skipWs r2)
          let pr ← parseObjectRest fuel (skipWs pv.2)
          pure (Json.obj ((String.mk pk.1, pv.1) :: pr.1), pr.2)
        | _ => none
      | _ => none
    | c :: cs2 =>
      if c = '-' ∨ c.isDigit then
        (parseNumberLit (c :: cs2)).map (fun p => (Json.num (String.mk p.1), p.2))
      else none

/-- Remaining elements of a JSON array after the first one. -/
def parseArrayRest : Nat → List Char → Option (List Json × List Char)
  | 0, _ => none
  | Nat.succ fuel, cs =>
    match cs with
    | ']' :: r => some ([], r)
    | ',' :: r => do
      let pv ← parseValue fuel (skipWs r)
      let pr ← parseArrayRest fuel (skipWs pv.2)
      pure (pv.1 :: pr.1, pr.2)
    | _ => none

/-- Remaining fields of a JSON object after the first one. -/
def parseObjectRest : Nat → List Char → Option (List (String × Json) × List Char)
  | 0, _ => none
  | Nat.succ fuel, cs =>
    match cs with
    | '}' :: r => some ([], r)
    | ',' :: r =>
      match skipWs r with
      | '"' :: r1 => do
        let pk ← parseStringBody (Nat.succ fuel) r1
        match skipWs pk.2 with
        | ':' :: r2 => do
          let pv ← parseValue fuel (skipWs r2)
          let pr ← parseObjectRest fuel (skipWs pv.2)
          pure ((String.mk pk.1, pv.1) :: pr.1, pr.2)
        | _ => none
      | _ => none
    | _ => none

end

/-- Model of `JSON.parse` on a whole string: a single value, possibly surrounded by
whitespace; anything else throws (here: `none`). -/
def jsonParse (s : String) : Option Json :=
  match parseValue (s.length + 1) s.data with
  | some (v, rest) => if (skipWs rest).isEmpty then some v else none
  | none => none

/-- JavaScript property access `j.k`: a field of an object (duplicate keys:
last one wins, as in `JSON.parse`), `undefined` (`none`) otherwise.
Access on `null` throws; callers model that case separately. -/
def Json.getField : Json → String → Option Json
  | Json.obj fields, k => fields.foldl (fun acc p => if p.1 = k then some p.2 else acc) none
  | _, _ => none

/-- Whether a JSON number lexeme denotes zero: every mantissa digit is 0. -/
def numIsZero (lit : String) : Bool :=
  ((lit.data.takeWhile (fun c => c ≠ 'e' ∧ c ≠ 'E')).filter Char.isDigit).all
    (fun c => c = '0')

/-- JavaScript truthiness of a possibly-`undefined` JSON value. -/
def jsTruthy : Option Json → Bool
  | none => false
  | some Json.null => false
  | some (Json.bool b) => b
  | some (Json.num lit) => !(numIsZero lit)
  | some (Json.str s) => s ≠ ""
  | some (Json.arr _) => true
  | some (Json.obj _) => true

/-! ## Notification Resolver (src/ui/app/memories/components/CreateMemoryDialog.tsx) -/

/-- Toast severity: `toast.success`, `toast.warning`, `toast.error`, or the
neutral `toast(...)`. -/
inductive Severity where
  | success
  | warning
  | error
  | neutral
deriving DecidableEq

/-- The user-visible effect of handling one create-memory response: which
toast fires (with the value passed as its message), whether the dialog is
closed (`setOpen false`) and whether the list is re-fetched
(`fetchMemories`). -/
structure NotifEffect where
  severity : Severity
  message : Option Json
  closeDialog : Bool
  refreshList : Bool

/-- The notification `useEffect` of `CreateMemoryDialog`: for a truthy
`notification` string, `JSON.parse` it and switch on `.type`; a parse
failure — or the `TypeError` thrown by `.type` on `null` — lands in the
`catch`, which shows a success toast with the raw string, closes the dialog
and refreshes the list. -/
def notificationEffect (notification : String) : Option NotifEffect :=
  if notification = "" then none
  else some <|
    match jsonParse notification with
    | none => ⟨Severity.success, some (Json.str notification), true, true⟩
    | some Json.null => ⟨Severity.success, some (Json.str notification), true, true⟩
    | some v =>
      match v.getField "type" with
      | some (Json.str "success") => ⟨Severity.success, v.getField "message", true, true⟩
      | some (Json.str "warning") => ⟨Severity.warning, v.getField "message", false, false⟩
      | some (Json.str "error") => ⟨Severity.error, v.getField "message", false, false⟩
      | some (Json.str "info") => ⟨Severity.neutral, v.getField "message", true, true⟩
      | _ => ⟨Severity.success, v.getField "message", true, true⟩

/-- The `catch` block of `handleCreateMemory`: try `JSON.parse(error.message)`;
when it yields a value with truthy `type` and `message`, switch on the type
(`success`/`info` close and refresh, `warning` only toasts, anything else is
an error toast); otherwise fall back to
`toast.error(error.response?.data?.detail || error.message || "Failed to create memory")`.
Accessing `.type` on a parsed `null` throws and is caught by the inner
`catch`, which also reaches the fallback. -/
def handleCreateError (errMessage : String) (detail : Option String) : NotifEffect :=
  let fallback : NotifEffect :=
    ⟨Severity.error,
     some (Json.str (jsOrStr detail (jsOrStr (some errMessage) "Failed to create memory"))),
     false, false⟩
  match jsonParse errMessage with
  | none => fallback
  | some Json.null => fallback
  | some v =>
    if jsTruthy (v.getField "type") && jsTruthy (v.getField "message") then
      match v.getField "type" with
      | some (Json.str "success") => ⟨Severity.success, v.getField "message", true, true⟩
      | some (Json.str "info") => ⟨Severity.neutral, v.getField "message", true, true⟩
      | some (Json.str "warning") => ⟨Severity.warning, v.getField "message", false, false⟩
      | _ => ⟨Severity.error, v.getField "message", false, false⟩
    else fallback

/-! ## Storage model: the two browser key/value tiers and write traces -/

/-- The two persistence tiers: `sessionStorage` and `localStorage`. -/
inductive Tier where
  | session
  | durable
deriving DecidableEq

/-- One `setItem` call. -/
structure WriteOp where
  tier : Tier
  key : String
  value : String

/-- A storage tier as an association list (`setItem` replaces in place or
appends; `getItem` returns the value or `null`). -/
def StoreData := List (String × String)

/-- Model of `getItem`. -/
def storeGet (st : StoreData) (k : String) : Option String :=
  match st.find? (fun p => p.1 = k) with
  | some p => some p.2
  | none => none

/-- Model of `setItem`. -/
def storeSet (st : StoreData) (k v : String) : StoreData :=
  match st with
  | [] => [(k, v)]
  | p :: rest => if p.1 = k then (k, v) :: rest else p :: storeSet rest k v

/-- Both storage tiers together. -/
structure Stores where
  session : StoreData
  durable : StoreData

/-- Storage with no keys set. -/
def emptyStores : Stores := ⟨[], []⟩

/-- Apply one write to the pair of stores. -/
def applyWrite (st : Stores) (w : WriteOp) : Stores :=
  match w.tier with
  | Tier.session => ⟨storeSet st.session w.key w.value, st.durable⟩
  | Tier.durable => ⟨st.session, storeSet st.durable w.key w.value⟩

/-- Apply a write trace in order. -/
def applyWrites (st : Stores) (ws : List WriteOp) : Stores :=
  ws.foldl applyWrite st

/-! ## Session Resolver (src/ui/services/keycloak.ts and the pages) -/

/-- The three Keycloak environment variables read by
`KeycloakService.initialize` (`process.env` values are strings or
`undefined`). -/
structure Env where
  keycloakUrl : Option String
  keycloakRealm : Option String
  keycloakClientId : Option String

/-- Model of `KeycloakService.initialize`: returns `false` (API-key fallback) when any
of the three configuration values is falsy, `true` after constructing the
OIDC client otherwise. -/
def initKeycloak (e : Env) : Bool :=
  if !truthyS e.keycloakUrl || !truthyS e.keycloakRealm || !truthyS e.keycloakClientId then
    false
  else
    true

/-- The OIDC profile claims the service reads (`oidc-client-ts` types `sub`
as a required string; the other claims are optional). -/
structure Profile where
  sub : String
  preferred_username : Option String
  name : Option String
  email : Option String

/-- Model of `KeycloakService.getUserId`: the `sub` claim, unvalidated. -/
def getUserId (p : Profile) : String := p.sub

/-- Model of `KeycloakService.getUserName`:
`profile.preferred_username || profile.name || profile.sub`. -/
def getUserName (p : Profile) : String :=
  jsOrStr p.preferred_username (jsOrStr p.name p.sub)

/-- Model of `KeycloakService.getUserEmail`: `profile.email || ''`. -/
def getUserEmail (p : Profile) : String :=
  jsOrStr p.email ""

/-- The write trace of the success branch of `handleCallback` in
`src/ui/app/auth/callback/page.tsx`: five `sessionStorage.setItem` calls
followed by four `localStorage.setItem` calls. -/
def handleCallbackWrites (p : Profile) (accessToken : Option String) : List WriteOp :=
  [⟨Tier.session, "user_id", getUserId p⟩,
   ⟨Tier.session, "user_name", getUserName p⟩,
   ⟨Tier.session, "user_email", getUserEmail p⟩,
   ⟨Tier.session, "access_token", jsOrStr accessToken ""⟩,
   ⟨Tier.session, "auth_type", "keycloak"⟩,
   ⟨Tier.durable, "user_id", getUserId p⟩,
   ⟨Tier.durable, "user_name", getUserName p⟩,
   ⟨Tier.durable, "user_email", getUserEmail p⟩,
   ⟨Tier.durable, "auth_type", "keycloak"⟩]

/-- Outcome of the SSO callback page: either the success branch ran (with its
write trace and a redirect to the dashboard) or the `catch` branch ran (with
an error message and a delayed redirect to `/login`). -/
inductive CallbackResult where
  | ok (writes : List WriteOp) (route : String)
  | failed (message : String) (route : String)

/-- Model of `handleCallback` of the SSO callback page, as a function of whether the
service initialized, the user returned by `signinRedirectCallback`, and the
token returned by `getAccessToken`. -/
def handleCallback (initialized : Bool) (user : Option Profile) (accessToken : Option String) :
    CallbackResult :=
  if !initialized then CallbackResult.failed "Keycloak not configured" "/login"
  else
    match user with
    | none => CallbackResult.failed "No user returned from callback" "/login"
    | some p => CallbackResult.ok (handleCallbackWrites p accessToken) "/"

/-- The write trace of the success branch of `handleApiKeyLogin` in
`src/ui/app/login/page.tsx` (response fields `user_id` and `name`): four
`sessionStorage.setItem` calls followed by three `localStorage.setItem`
calls. -/
def apiKeyLoginWrites (apiKey userId : String) (name : Option String) : List WriteOp :=
  [⟨Tier.session, "api_key", apiKey⟩,
   ⟨Tier.session, "user_id", userId⟩,
   ⟨Tier.session, "user_name", jsOrStr name userId⟩,
   ⟨Tier.session, "auth_type", "api_key"⟩,
   ⟨Tier.durable, "api_key", apiKey⟩,
   ⟨Tier.durable, "user_id", userId⟩,
   ⟨Tier.durable, "user_name", jsOrStr name userId⟩]

/-- Model of `checkKeycloakAuth` of the login page: when an unexpired SSO user exists,
write `user_id`, `user_name`, `access_token`, `auth_type` into
`sessionStorage` only, then route to the dashboard; otherwise do nothing. -/
def checkKeycloakAuth (isAuth : Bool) (user : Option Profile) (accessToken : Option String) :
    List WriteOp × Option String :=
  if isAuth then
    match user with
    | some p =>
      ([⟨Tier.session, "user_id", getUserId p⟩,
        ⟨Tier.session, "user_name", getUserName p⟩,
        ⟨Tier.session, "access_token", jsOrStr accessToken ""⟩,
        ⟨Tier.session, "auth_type", "keycloak"⟩], some "/")
    | none => ([], none)
  else ([], none)

/-- Model of `sessionStorage.getItem(k) || localStorage.getItem(k)`, the read pattern
of `checkAuth` on the memories and settings pages. -/
def resolveKey (st : Stores) (k : String) : Option String :=
  jsOrOpt (storeGet st.session k) (storeGet st.durable k)

/-- The `currentUser` value `checkAuth` builds on success. -/
structure CurrentUser where
  apiKey : String
  userId : Option String
  userName : Option String

/-- Model of `checkAuth` of `SettingsPage` (and, up to display truncation of the key,
of `MemoriesPage`): resolve `api_key`, `user_id`, `user_name` session-first;
when the resolved `api_key` is falsy, redirect to `/login` and do nothing
else (`none`); otherwise proceed with the current user. -/
def checkAuth (st : Stores) : Option CurrentUser :=
  match resolveKey st "api_key" with
  | none => none
  | some k =>
    if k = "" then none
    else some ⟨k, resolveKey st "user_id", resolveKey st "user_name"⟩

/-- Model of `handleLogout` of the memories and settings pages:
`sessionStorage.clear(); localStorage.clear(); router.push('/login')`. -/
def handleLogout (_st : Stores) : Stores × String :=
  ((⟨[], []⟩ : Stores), "/login")

/-! ## Basic facts about the storage model and the parser -/

theorem storeGet_storeSet_same (st : StoreData) (k v : String) :
    storeGet (storeSet st k v) k = some v := by
  induction st with
  | nil => simp [storeGet, storeSet, List.find?]
  | cons p rest ih =>
    by_cases h : p.1 = k
    · simp [storeSet, h, storeGet, List.find?]
    · simp only [storeSet, h, if_false]
      simpa [storeGet, List.find?, h] using ih

theorem storeGet_storeSet_ne (st : StoreData) (k k' v : String) (h : k' ≠ k) :
    storeGet (storeSet st k v) k' = storeGet st k' := by
  have h' : ¬(k = k') := by
    intro hh
    exact h hh.symm
  induction st with
  | nil => simp [storeGet, storeSet, List.find?, h']
  | cons p rest ih =>
    by_cases hp : p.1 = k
    · have hpk : ¬(p.1 = k') := by
        rw [hp]
        exact h'
      simp [storeSet, hp, storeGet, List.find?, h', hpk]
    · by_cases hp' : p.1 = k'
      · simp [storeSet, hp, storeGet, List.find?, hp', h]
      · simp only [storeSet, hp, if_false]
        simpa [storeGet, List.find?, hp'] using ih

theorem jsonParse_empty : jsonParse "" = none := rfl

/-! ## Claims -/

/-- Claim C1: for every create-memory response that resolves to a structured
notification — whether delivered as the `notification` string (the
`useEffect` path) or embedded in a thrown error's message with truthy `type`
and `message` (the `handleCreateMemory` catch path) — `warning` and `error`
types show a toast of that severity and neither close the dialog nor refresh
the list, while `success` and `info` show a success/neutral toast, close the
dialog and refresh the list. -/
theorem claim1_structured_notification (raw : String) (detail : Option String)
    (v : Json) (t : String)
    (hp : jsonParse raw = some v)
    (ht : v.getField "type" = some (Json.str t))
    (hm : jsTruthy (v.getField "message") = true) :
    (t = "success" →
      notificationEffect raw = some ⟨Severity.success, v.getField "message", true, true⟩ ∧
      handleCreateError raw detail = ⟨Severity.success, v.getField "message", true, true⟩) ∧
    (t = "info" →
      notificationEffect raw = some ⟨Severity.neutral, v.getField "message", true, true⟩ ∧
      handleCreateError raw detail = ⟨Severity.neutral, v.getField "message", true, true⟩) ∧
    (t = "warning" →
      notificationEffect raw = some ⟨Severity.warning, v.getField "message", false, false⟩ ∧
      handleCreateError raw detail = ⟨Severity.warning, v.getField "message", false, false⟩) ∧
    (t = "error" →
      notificationEffect raw = some ⟨Severity.error, v.getField "message", false, false⟩ ∧
      handleCreateError raw detail = ⟨Severity.error, v.getField "message", false, false⟩) := by
  have hraw : ¬(raw = "") := by
    intro h
    rw [h, jsonParse_empty] at hp
    exact Option.noConfusion hp
  cases v with
  | null => simp [Json.getField] at ht
  | bool b => simp [Json.getField] at ht
  | num l => simp [Json.getField] at ht
  | str s => simp [Json.getField] at ht
  | arr xs => simp [Json.getField] at ht
  | obj fields =>
    cases hq : (Json.obj fields).getField "message" with
    | none =>
      rw [hq] at hm
      simp [jsTruthy] at hm
    | some m =>
      rw [hq] at hm
      refine ⟨?_, ?_, ?_, ?_⟩
      · rintro rfl
        have h1 : jsTruthy (some (Json.str "success")) = true := rfl
        exact ⟨by simp [notificationEffect, hraw, hp, ht, hq],
               by simp [handleCreateError, hp, ht, hq, h1, hm]⟩
      · rintro rfl
        have h1 : jsTruthy (some (Json.str "info")) = true := rfl
        exact ⟨by simp [notificationEffect, hraw, hp, ht, hq],
               by simp [handleCreateError, hp, ht, hq, h1, hm]⟩
      · rintro rfl
        have h1 : jsTruthy (some (Json.str "warning")) = true := rfl
        exact ⟨by simp [notificationEffect, hraw, hp, ht, hq],
               by simp [handleCreateError, hp, ht, hq, h1, hm]⟩
      · rintro rfl
        have h1 : jsTruthy (some (Json.str "error")) = true := rfl
        exact ⟨by simp [notificationEffect, hraw, hp, ht, hq],
               by simp [handleCreateError, hp, ht, hq, h1, hm]⟩

/-- Claim C1, witness at the spec's warning example, on both delivery
paths. -/
theorem claim1_witness :
    notificationEffect "\x7b\"type\":\"warning\",\"message\":\"Duplicate\"\x7d" =
      some ⟨Severity.warning, some (Json.str "Duplicate"), false, false⟩ ∧
    handleCreateError "\x7b\"type\":\"warning\",\"message\":\"Duplicate\"\x7d" none =
      ⟨Severity.warning, some (Json.str "Duplicate"), false, false⟩ :=
  (claim1_structured_notification "\x7b\"type\":\"warning\",\"message\":\"Duplicate\"\x7d"
    none (Json.obj [("type", Json.str "warning"), ("message", Json.str "Duplicate")])
    "warning" rfl rfl rfl).2.2.1 rfl

/-- Claim C2, counterexample: an error whose message is a plain non-JSON
string produces an ERROR toast (and neither closes the dialog nor refreshes
the list), not the claimed unparseable-success outcome. -/
theorem claim2_counterexample :
    jsonParse "Network failure" = none ∧
    handleCreateError "Network failure" none =
      ⟨Severity.error, some (Json.str "Network failure"), false, false⟩ ∧
    Severity.error ≠ Severity.success :=
  ⟨rfl, rfl, by decide⟩

/-- Claim C2, amended: a `notification` string that does not parse as JSON
degrades to unparseable-success on the `useEffect` path (success toast with
the raw string, close dialog, refresh list); but an error whose message does
not parse as JSON takes the regular error fallback — an error toast carrying
`detail`, else the message, else a generic fallback — and neither closes the
dialog nor refreshes the list. -/
theorem claim2_unparseable_paths (raw : String) (detail : Option String)
    (hp : jsonParse raw = none) (hne : raw ≠ "") :
    notificationEffect raw = some ⟨Severity.success, some (Json.str raw), true, true⟩ ∧
    handleCreateError raw detail =
      ⟨Severity.error,
       some (Json.str (jsOrStr detail (jsOrStr (some raw) "Failed to create memory"))),
       false, false⟩ := by
  constructor
  · simp [notificationEffect, hp, hne]
  · simp [handleCreateError, hp]

/-- Claim C2, witness at the spec's plain-string example on both paths. -/
theorem claim2_witness :
    notificationEffect "Memory created" =
      some ⟨Severity.success, some (Json.str "Memory created"), true, true⟩ ∧
    handleCreateError "Memory created" none =
      ⟨Severity.error, some (Json.str "Memory created"), false, false⟩ :=
  claim2_unparseable_paths "Memory created" none rfl (by decide)

/-- Claim C3, counterexample: after a concrete successful SSO callback
applied to empty storage, the durable store holds no `access_token` even
though the session store does — so `completeSsoLogin` does not write all
four Session fields into BOTH stores. -/
theorem claim3_counterexample :
    storeGet (applyWrites emptyStores
      (handleCallbackWrites ⟨"abc", some "alice", none, some "a@b"⟩ (some "tok123"))).durable
      "access_token" = none ∧
    storeGet (applyWrites emptyStores
      (handleCallbackWrites ⟨"abc", some "alice", none, some "a@b"⟩ (some "tok123"))).session
      "access_token" = some "tok123" :=
  ⟨rfl, rfl⟩

/-- Claim C3, amended: the successful SSO callback writes `user_id`,
`user_name`, `user_email`, `access_token` and `auth_type = keycloak` into the
session-scoped store, and the same fields minus `access_token` into the
durable store, with every session-scoped write preceding every durable
write. -/
theorem claim3_sso_persistence (p : Profile) (tok : Option String) :
    storeGet (applyWrites emptyStores (handleCallbackWrites p tok)).session "user_id" =
      some (getUserId p) ∧
    storeGet (applyWrites emptyStores (handleCallbackWrites p tok)).session "user_name" =
      some (getUserName p) ∧
    storeGet (applyWrites emptyStores (handleCallbackWrites p tok)).session "user_email" =
      some (getUserEmail p) ∧
    storeGet (applyWrites emptyStores (handleCallbackWrites p tok)).session "access_token" =
      some (jsOrStr tok "") ∧
    storeGet (applyWrites emptyStores (handleCallbackWrites p tok)).session "auth_type" =
      some "keycloak" ∧
    storeGet (applyWrites emptyStores (handleCallbackWrites p tok)).durable "user_id" =
      some (getUserId p) ∧
    storeGet (applyWrites emptyStores (handleCallbackWrites p tok)).durable "user_name" =
      some (getUserName p) ∧
    storeGet (applyWrites emptyStores (handleCallbackWrites p tok)).durable "user_email" =
      some (getUserEmail p) ∧
    storeGet (applyWrites emptyStores (handleCallbackWrites p tok)).durable "auth_type" =
      some "keycloak" ∧
    storeGet (applyWrites emptyStores (handleCallbackWrites p tok)).durable "access_token" =
      none ∧
    (handleCallbackWrites p tok).filter (fun w => w.tier == Tier.session) ++
        (handleCallbackWrites p tok).filter (fun w => w.tier == Tier.durable) =
      handleCallbackWrites p tok :=
  ⟨rfl, rfl, rfl, rfl, rfl, rfl, rfl, rfl, rfl, rfl, rfl⟩

/-- Claim C4, counterexample: after a concrete API-key login applied to
empty storage, `auth_type` is present in the session-scoped store but absent
from the durable store — a key other than `access_token` on which the two
stores differ. -/
theorem claim4_counterexample :
    storeGet (applyWrites emptyStores (apiKeyLoginWrites "k1" "u1" (some "Alice"))).session
      "auth_type" = some "api_key" ∧
    storeGet (applyWrites emptyStores (apiKeyLoginWrites "k1" "u1" (some "Alice"))).durable
      "auth_type" = none ∧
    "auth_type" ≠ ("access_token" : String) :=
  ⟨rfl, rfl, by decide⟩

/-- Claim C4, amended: both logins write the two stores identically except
that the durable store omits `access_token` — and the API-key login
additionally omits `auth_type` from the durable store (and never writes
`access_token` at all). -/
theorem claim4_dual_store (p : Profile) (tok : Option String)
    (apiKey userId : String) (name : Option String) (k : String) :
    (k ≠ "access_token" →
      storeGet (applyWrites emptyStores (handleCallbackWrites p tok)).session k =
        storeGet (applyWrites emptyStores (handleCallbackWrites p tok)).durable k) ∧
    (k ≠ "access_token" → k ≠ "auth_type" →
      storeGet (applyWrites emptyStores (apiKeyLoginWrites apiKey userId name)).session k =
        storeGet (applyWrites emptyStores (apiKeyLoginWrites apiKey userId name)).durable k) ∧
    storeGet (applyWrites emptyStores (apiKeyLoginWrites apiKey userId name)).session
      "access_token" = none ∧
    storeGet (applyWrites emptyStores (apiKeyLoginWrites apiKey userId name)).durable
      "auth_type" = none ∧
    storeGet (applyWrites emptyStores (handleCallbackWrites p tok)).durable "access_token" =
      none := by
  refine ⟨?_, ?_, rfl, rfl, rfl⟩
  · intro h1
    by_cases hk : k = "auth_type"
    · subst hk
      show storeGet (storeSet (storeSet (storeSet (storeSet (storeSet []
          "user_id" (getUserId p)) "user_name" (getUserName p))
          "user_email" (getUserEmail p)) "access_token" (jsOrStr tok ""))
          "auth_type" "keycloak") "auth_type" =
        storeGet (storeSet (storeSet (storeSet (storeSet [] "user_id" (getUserId p))
          "user_name" (getUserName p)) "user_email" (getUserEmail p))
          "auth_type" "keycloak") "auth_type"
      rw [storeGet_storeSet_same, storeGet_storeSet_same]
    · show storeGet (storeSet (storeSet (storeSet (storeSet (storeSet []
          "user_id" (getUserId p)) "user_name" (getUserName p))
          "user_email" (getUserEmail p)) "access_token" (jsOrStr tok ""))
          "auth_type" "keycloak") k =
        storeGet (storeSet (storeSet (storeSet (storeSet [] "user_id" (getUserId p))
          "user_name" (getUserName p)) "user_email" (getUserEmail p))
          "auth_type" "keycloak") k
      rw [storeGet_storeSet_ne _ _ _ _ hk, storeGet_storeSet_ne _ _ _ _ h1,
          storeGet_storeSet_ne _ _ _ _ hk]
  · intro h1 h2
    show storeGet (storeSet (storeSet (storeSet (storeSet [] "api_key" apiKey)
        "user_id" userId) "user_name" (jsOrStr name userId)) "auth_type" "api_key") k =
      storeGet (storeSet (storeSet (storeSet [] "api_key" apiKey) "user_id" userId)
        "user_name" (jsOrStr name userId)) k
    rw [storeGet_storeSet_ne _ _ _ _ h2]

/-- Claim C4, witness: a concrete SSO login writes `auth_type` identically to
both stores, and a concrete API-key login agrees on `user_name`. -/
theorem claim4_witness :
    storeGet (applyWrites emptyStores
      (handleCallbackWrites ⟨"s", none, none, none⟩ none)).session "auth_type" =
    storeGet (applyWrites emptyStores
      (handleCallbackWrites ⟨"s", none, none, none⟩ none)).durable "auth_type" ∧
    storeGet (applyWrites emptyStores (apiKeyLoginWrites "k1" "u1" (some "Alice"))).session
      "user_name" =
    storeGet (applyWrites emptyStores (apiKeyLoginWrites "k1" "u1" (some "Alice"))).durable
      "user_name" :=
  ⟨(claim4_dual_store ⟨"s", none, none, none⟩ none "k1" "u1" (some "Alice") "auth_type").1
      (by decide),
   (claim4_dual_store ⟨"s", none, none, none⟩ none "k1" "u1" (some "Alice") "user_name").2.1
      (by decide) (by decide)⟩

/-- Claim C5, counterexample: with the session-scoped `api_key` present but
empty and a non-empty durable `api_key`, `checkAuth` falls back to the
durable value even though the session-scoped value is not absent. -/
theorem claim5_counterexample :
    storeGet (Stores.mk [("api_key", "")] [("api_key", "realkey")]).session "api_key" =
      some "" ∧
    checkAuth ⟨[("api_key", "")], [("api_key", "realkey")]⟩ =
      some ⟨"realkey", none, none⟩ :=
  ⟨rfl, rfl⟩

/-- Claim C5, amended: `checkAuth` uses the session-scoped `api_key` when it
is present and non-empty, falls back to the durable store when the
session-scoped value is absent or empty, and redirects to `/login` with no
further page work whenever the resolved value is absent or empty — in
particular whenever neither store contains an `api_key`, regardless of any
SSO session also present in storage. -/
theorem claim5_check_auth (st : Stores) :
    (∀ k, storeGet st.session "api_key" = some k → k ≠ "" →
      checkAuth st = some ⟨k, resolveKey st "user_id", resolveKey st "user_name"⟩) ∧
    ((storeGet st.session "api_key" = none ∨ storeGet st.session "api_key" = some "") →
      ∀ k, storeGet st.durable "api_key" = some k → k ≠ "" →
        checkAuth st = some ⟨k, resolveKey st "user_id", resolveKey st "user_name"⟩) ∧
    (storeGet st.session "api_key" = none → storeGet st.durable "api_key" = none →
      checkAuth st = none) ∧
    (truthyS (resolveKey st "api_key") = false → checkAuth st = none) := by
  refine ⟨?_, ?_, ?_, ?_⟩
  · intro k hk hne
    simp [checkAuth, resolveKey, jsOrOpt, hk, hne]
  · rintro (h | h) k hk hne <;> simp [checkAuth, resolveKey, jsOrOpt, h, hk, hne]
  · intro h1 h2
    simp [checkAuth, resolveKey, jsOrOpt, h1, h2]
  · intro h
    rcases hr : resolveKey st "api_key" with _ | k
    · simp [checkAuth, hr]
    · rw [hr] at h
      simp [truthyS] at h
      simp [checkAuth, hr, h]

/-- Claim C5, witness: storage holding a complete SSO session but no
`api_key` in either store makes `checkAuth` redirect (return absent). -/
theorem claim5_witness :
    checkAuth ⟨[("user_id", "u"), ("auth_type", "keycloak"), ("access_token", "tok")], []⟩ =
      none :=
  (claim5_check_auth
    ⟨[("user_id", "u"), ("auth_type", "keycloak"), ("access_token", "tok")], []⟩).2.2.1 rfl rfl

/-- Claim C6: logout empties every key of both stores, routes to `/login`,
and a subsequent `checkAuth` on the cleared storage returns absent. -/
theorem claim6_logout_clears (st : Stores) (k : String) :
    (handleLogout st).2 = "/login" ∧
    storeGet (handleLogout st).1.session k = none ∧
    storeGet (handleLogout st).1.durable k = none ∧
    checkAuth (handleLogout st).1 = none :=
  ⟨rfl, rfl, rfl, rfl⟩

/-- Claim C7, counterexample: for a provider user whose `sub` claim is the
empty string, the SSO callback succeeds — producing a session whose
`user_id` is `""` and routing to the dashboard — instead of failing with any
missing-subject error. -/
theorem claim7_counterexample :
    handleCallback true (some ⟨"", none, some "Alice", none⟩) (some "tok") =
      CallbackResult.ok
        [⟨Tier.session, "user_id", ""⟩, ⟨Tier.session, "user_name", "Alice"⟩,
         ⟨Tier.session, "user_email", ""⟩, ⟨Tier.session, "access_token", "tok"⟩,
         ⟨Tier.session, "auth_type", "keycloak"⟩,
         ⟨Tier.durable, "user_id", ""⟩, ⟨Tier.durable, "user_name", "Alice"⟩,
         ⟨Tier.durable, "user_email", ""⟩, ⟨Tier.durable, "auth_type", "keycloak"⟩] "/" :=
  rfl

/-- Claim C7, amended: `getUserId` passes the `sub` claim through without
validation, and the callback succeeds for every provider user — including
one with an empty `sub`, which yields a session whose stored `user_id` is
the empty string. -/
theorem claim7_no_sub_validation (p : Profile) (tok : Option String) :
    getUserId p = p.sub ∧
    handleCallback true (some p) tok = CallbackResult.ok (handleCallbackWrites p tok) "/" ∧
    storeGet (applyWrites emptyStores (handleCallbackWrites p tok)).session "user_id" =
      some p.sub :=
  ⟨rfl, rfl, rfl⟩

/-- Claim C8: the Keycloak service reports SSO available exactly when all
three configuration values (url, realm, clientId) are present and
non-empty; any missing or empty value makes it return `false`, the API-key
fallback. -/
theorem claim8_resolve_auth_mode (e : Env) :
    initKeycloak e = true ↔
      ((∃ u, e.keycloakUrl = some u ∧ u ≠ "") ∧
       (∃ r, e.keycloakRealm = some r ∧ r ≠ "") ∧
       (∃ c, e.keycloakClientId = some c ∧ c ≠ "")) := by
  cases e with
  | mk u r c =>
    cases u <;> cases r <;> cases c <;> simp [initKeycloak, truthyS, and_assoc]

/-- Claim C9, counterexample: for a provider user whose `preferred_username`
claim is present but empty, `getUserName` yields the `name` claim rather
than the present `preferred_username`. -/
theorem claim9_counterexample :
    (Profile.mk "abc" (some "") (some "Alice") none).preferred_username = some "" ∧
    getUserName ⟨"abc", some "", some "Alice", none⟩ = "Alice" ∧
    "Alice" ≠ ("" : String) :=
  ⟨rfl, rfl, by decide⟩

/-- Claim C9, amended: `userName` is `preferred_username` when present and
non-empty, otherwise `name` when present and non-empty, otherwise `sub`
(first match wins, with empty strings skipped like absent claims). -/
theorem claim9_user_name (p : Profile) :
    (∀ u, p.preferred_username = some u → u ≠ "" → getUserName p = u) ∧
    ((p.preferred_username = none ∨ p.preferred_username = some "") →
      ∀ n, p.name = some n → n ≠ "" → getUserName p = n) ∧
    ((p.preferred_username = none ∨ p.preferred_username = some "") →
      (p.name = none ∨ p.name = some "") → getUserName p = p.sub) := by
  refine ⟨?_, ?_, ?_⟩
  · intro u hu hne
    simp [getUserName, jsOrStr, hu, hne]
  · rintro (h | h) n hn hne <;> simp [getUserName, jsOrStr, h, hn, hne]
  · rintro (h | h) (h2 | h2) <;> simp [getUserName, jsOrStr, h, h2]

/-- Claim C9, witness at the spec's example (`sub = "abc"`, no
`preferred_username`, `name = "Alice"`). -/
theorem claim9_witness : getUserName ⟨"abc", none, some "Alice", none⟩ = "Alice" :=
  (claim9_user_name ⟨"abc", none, some "Alice", none⟩).2.1 (Or.inl rfl) "Alice" rfl
    (by decide)

/-- Claim C10: when the login page finds an authenticated SSO user on mount,
it routes to the dashboard after writing only `user_id`, `user_name`,
`access_token` and `auth_type`, only into the session-scoped store: the
durable store is untouched, every other session key (including
`user_email`) keeps its prior value, and no write targets `user_email`. -/
theorem claim10_login_sso_frame (p : Profile) (tok : Option String) (init : Stores)
    (k : String) (h1 : k ≠ "user_id") (h2 : k ≠ "user_name") (h3 : k ≠ "access_token")
    (h4 : k ≠ "auth_type") :
    (checkKeycloakAuth true (some p) tok).2 = some "/" ∧
    (applyWrites init (checkKeycloakAuth true (some p) tok).1).durable = init.durable ∧
    storeGet (applyWrites init (checkKeycloakAuth true (some p) tok).1).session "user_id" =
      some (getUserId p) ∧
    storeGet (applyWrites init (checkKeycloakAuth true (some p) tok).1).session "user_name" =
      some (getUserName p) ∧
    storeGet (applyWrites init (checkKeycloakAuth true (some p) tok).1).session
      "access_token" = some (jsOrStr tok "") ∧
    storeGet (applyWrites init (checkKeycloakAuth true (some p) tok).1).session "auth_type" =
      some "keycloak" ∧
    storeGet (applyWrites init (checkKeycloakAuth true (some p) tok).1).session k =
      storeGet init.session k ∧
    ((checkKeycloakAuth true (some p) tok).1.all
      (fun w => w.tier == Tier.session && !(w.key == "user_email"))) = true := by
  refine ⟨rfl, rfl, ?_, ?_, ?_, ?_, ?_, rfl⟩
  · show storeGet (storeSet (storeSet (storeSet (storeSet init.session
        "user_id" (getUserId p)) "user_name" (getUserName p))
        "access_token" (jsOrStr tok "")) "auth_type" "keycloak") "user_id" =
      some (getUserId p)
    rw [storeGet_storeSet_ne _ _ _ _ (by decide), storeGet_storeSet_ne _ _ _ _ (by decide),
        storeGet_storeSet_ne _ _ _ _ (by decide), storeGet_storeSet_same]
  · show storeGet (storeSet (storeSet (storeSet (storeSet init.session
        "user_id" (getUserId p)) "user_name" (getUserName p))
        "access_token" (jsOrStr tok "")) "auth_type" "keycloak") "user_name" =
      some (getUserName p)
    rw [storeGet_storeSet_ne _ _ _ _ (by decide), storeGet_storeSet_ne _ _ _ _ (by decide),
        storeGet_storeSet_same]
  · show storeGet (storeSet (storeSet (storeSet (storeSet init.session
        "user_id" (getUserId p)) "user_name" (getUserName p))
        "access_token" (jsOrStr tok "")) "auth_type" "keycloak") "access_token" =
      some (jsOrStr tok "")
    rw [storeGet_storeSet_ne _ _ _ _ (by decide), storeGet_storeSet_same]
  · show storeGet (storeSet (storeSet (storeSet (storeSet init.session
        "user_id" (getUserId p)) "user_name" (getUserName p))
        "access_token" (jsOrStr tok "")) "auth_type" "keycloak") "auth_type" =
      some "keycloak"
    rw [storeGet_storeSet_same]
  · show storeGet (storeSet (storeSet (storeSet (storeSet init.session
        "user_id" (getUserId p)) "user_name" (getUserName p))
        "access_token" (jsOrStr tok "")) "auth_type" "keycloak") k =
      storeGet init.session k
    rw [storeGet_storeSet_ne _ _ _ _ h4, storeGet_storeSet_ne _ _ _ _ h3,
        storeGet_storeSet_ne _ _ _ _ h2, storeGet_storeSet_ne _ _ _ _ h1]

/-- Claim C10, witness: a concrete mount-time SSO check leaves a previously
stored session `user_email` untouched. -/
theorem claim10_witness :
    storeGet (applyWrites (⟨[("user_email", "e@x")], [("z", "1")]⟩ : Stores)
      (checkKeycloakAuth true (some ⟨"u", none, none, none⟩) none).1).session "user_email" =
      some "e@x" := by
  have h := (claim10_login_sso_frame ⟨"u", none, none, none⟩ none
    (⟨[("user_email", "e@x")], [("z", "1")]⟩ : Stores) "user_email"
    (by decide) (by decide) (by decide) (by decide)).2.2.2.2.2.2.1
  rw [h]
  rfl


